import Mathlib

/-!
# Verification of the blink/tilt gesture-detection core

Shallow embedding of the gesture-detection core of the `blink-delete`
page (`src/app/blink-delete/page.tsx`): the landmark geometry
(`calculateEAR`, `calculateHeadTilt`), the stateful blink and head-tilt
classifiers inside `faceMesh.onResults`, the page-level tilt/blink
handlers, and the calibration controller.

Numeric conventions: JavaScript numbers are modelled by an arbitrary
linear ordered field `α` in the classifier steps (instantiated at `ℝ`
for the geometry pipeline and at `ℚ` for concrete executable runs);
`Date.now()` timestamps are modelled as `ℤ` milliseconds.
-/

namespace BlinkDelete

/-- Head-tilt direction, the values of `detectedTilt` /
`lastTiltDirectionRef` / `state.headTilt` in the source
(`"neutral" | "left" | "right"`). -/
inductive Dir where
  | neutral
  | left
  | right
deriving DecidableEq, Repr

/-- One face landmark: a point with `x`, `y` and (optional, unused by the
geometry here except being carried along) `z` coordinates, as produced by
the landmark model. -/
structure Landmark where
  x : ℝ
  y : ℝ
  z : ℝ

/-- The zero landmark, used as an out-of-range placeholder (never actually
read after the in-range checks). -/
def Landmark.zero : Landmark := ⟨0, 0, 0⟩

/-- Euclidean distance between two landmarks in the image plane:
`Math.sqrt(Math.pow(a.x - b.x, 2) + Math.pow(a.y - b.y, 2))`. -/
noncomputable def planeDist (a b : Landmark) : ℝ :=
  Real.sqrt ((a.x - b.x) ^ 2 + (a.y - b.y) ^ 2)

/-- The source function `calculateEAR(eyeLandmarks)`: Eye Aspect Ratio from six
eye landmarks.  Returns `1` when fewer than 6 points are supplied or the
horizontal distance is `0`; otherwise `(v1 + v2) / (2 * h)`. -/
noncomputable def calculateEAR (eyeLandmarks : List Landmark) : ℝ :=
  if eyeLandmarks.length < 6 then 1
  else
    let v1 := planeDist (eyeLandmarks.getD 1 Landmark.zero) (eyeLandmarks.getD 5 Landmark.zero)
    let v2 := planeDist (eyeLandmarks.getD 2 Landmark.zero) (eyeLandmarks.getD 4 Landmark.zero)
    let h := planeDist (eyeLandmarks.getD 0 Landmark.zero) (eyeLandmarks.getD 3 Landmark.zero)
    if h = 0 then 1
    else (v1 + v2) / (2 * h)

/-- The horizontal eye distance `h` of `calculateEAR` (points 0 and 3). -/
noncomputable def earH (eyeLandmarks : List Landmark) : ℝ :=
  planeDist (eyeLandmarks.getD 0 Landmark.zero) (eyeLandmarks.getD 3 Landmark.zero)

/-- The first vertical eye distance `v1` of `calculateEAR` (points 1 and 5). -/
noncomputable def earV1 (eyeLandmarks : List Landmark) : ℝ :=
  planeDist (eyeLandmarks.getD 1 Landmark.zero) (eyeLandmarks.getD 5 Landmark.zero)

/-- The second vertical eye distance `v2` of `calculateEAR` (points 2 and 4). -/
noncomputable def earV2 (eyeLandmarks : List Landmark) : ℝ :=
  planeDist (eyeLandmarks.getD 2 Landmark.zero) (eyeLandmarks.getD 4 Landmark.zero)

/-- JavaScript `Math.atan2(y, x)` over the reals (signed zeros do not exist in `ℝ`;
`atan2 0 0 = 0` as in JavaScript). -/
noncomputable def atan2 (y x : ℝ) : ℝ :=
  if 0 < x then Real.arctan (y / x)
  else if x < 0 then
    (if 0 ≤ y then Real.arctan (y / x) + Real.pi else Real.arctan (y / x) - Real.pi)
  else if 0 < y then Real.pi / 2
  else if y < 0 then -(Real.pi / 2)
  else 0

/-- Landmark index of the left ear (`LEFT_EAR = 234`). -/
def LEFT_EAR : ℕ := 234

/-- Landmark index of the right ear (`RIGHT_EAR = 454`). -/
def RIGHT_EAR : ℕ := 454

/-- The source function `calculateHeadTilt(landmarks)`: head-roll angle in
degrees from the two ear landmarks, `atan2(deltaY, deltaX) * 180 / π`;
`0` when either ear landmark is absent. -/
noncomputable def calculateHeadTilt (landmarks : List Landmark) : ℝ :=
  match landmarks.get? LEFT_EAR, landmarks.get? RIGHT_EAR with
  | some leftEar, some rightEar =>
      let deltaY := rightEar.y - leftEar.y
      let deltaX := rightEar.x - leftEar.x
      atan2 deltaY deltaX * (180 / Real.pi)
  | _, _ => 0

/-! ## Blink classifier (the `===== BLINK DETECTION =====` block of `onResults`) -/

/-- The mutable blink-detection state of the hook: the refs
`lastBlinkTimeRef`, `isBlinkingRef`, `eyeOpenSinceRef`,
`consecutiveLowEARRef`, and the React-visible fields `blinkCount`,
`isBlinking` (`stateIsBlinking` here) and `lastBlinkTime`
(`stateLastBlinkTime` here) of `state`. -/
structure BlinkState where
  lastBlinkTime : ℤ
  isBlinking : Bool
  eyeOpenSince : ℤ
  consecutiveLowEAR : ℕ
  blinkCount : ℕ
  stateIsBlinking : Bool
  stateLastBlinkTime : ℤ
deriving DecidableEq, Repr

/-- Initial blink state: all refs start at `0` / `false` when the hook is
created. -/
def BlinkState.init : BlinkState :=
  { lastBlinkTime := 0, isBlinking := false, eyeOpenSince := 0,
    consecutiveLowEAR := 0, blinkCount := 0, stateIsBlinking := false,
    stateLastBlinkTime := 0 }

variable {α : Type} [LinearOrderedField α]

/-- One frame of the blink-detection block of `onResults`, given the
already-computed `avgEAR` and the current time `now` (`Date.now()`).
Returns the updated state and whether a blink event fired (`onBlink`
invoked) on this frame. -/
def blinkStep (blinkThreshold : α) (debounceMs : ℤ) (s : BlinkState)
    (avgEAR : α) (now : ℤ) : BlinkState × Bool :=
  let isCurrentlyBlinking : Bool := decide (avgEAR < blinkThreshold)
  let s1 : BlinkState :=
    if isCurrentlyBlinking then
      { s with consecutiveLowEAR := s.consecutiveLowEAR + 1 }
    else
      let s' := { s with consecutiveLowEAR := 0 }
      if s'.eyeOpenSince = 0 then { s' with eyeOpenSince := now } else s'
  let isConfirmedBlink : Bool := decide (2 ≤ s1.consecutiveLowEAR)
  let fire : Bool :=
    isConfirmedBlink && !s1.isBlinking &&
      decide (debounceMs < now - s1.lastBlinkTime) &&
      decide (150 < now - s1.eyeOpenSince)
  let s2 : BlinkState :=
    if fire then
      { s1 with lastBlinkTime := now, eyeOpenSince := 0,
                blinkCount := s1.blinkCount + 1, stateIsBlinking := true,
                stateLastBlinkTime := now }
    else s1
  let s3 : BlinkState :=
    if !isCurrentlyBlinking && s2.isBlinking then
      { s2 with stateIsBlinking := false }
    else s2
  ({ s3 with isBlinking := isConfirmedBlink }, fire)

/-- Run the blink classifier over a list of `(avgEAR, now)` frames,
collecting the per-frame fired flags in order. -/
def blinkRun (blinkThreshold : α) (debounceMs : ℤ) (s : BlinkState) :
    List (α × ℤ) → BlinkState × List Bool
  | [] => (s, [])
  | (e, t) :: rest =>
      let (s', fired) := blinkStep blinkThreshold debounceMs s e t
      let (sEnd, fires) := blinkRun blinkThreshold debounceMs s' rest
      (sEnd, fired :: fires)

/-! ## Tilt classifier (the `===== HEAD TILT DETECTION =====` block) -/

/-- The mutable tilt-detection state of the hook: the refs
`lastTiltTimeRef`, `consecutiveTiltFramesRef`, `lastTiltDirectionRef`,
`hasFiredTiltRef`, `wasNeutralRef`, and the React-visible `state.headTilt`. -/
structure TiltState where
  lastTiltTime : ℤ
  consecutiveTiltFrames : ℕ
  lastTiltDirection : Dir
  hasFiredTilt : Bool
  wasNeutral : Bool
  headTilt : Dir
deriving DecidableEq, Repr

/-- Initial tilt state: `lastTiltTimeRef = 0`, counter `0`, direction
`neutral`, `hasFiredTiltRef = false`, `wasNeutralRef = true`. -/
def TiltState.init : TiltState :=
  { lastTiltTime := 0, consecutiveTiltFrames := 0,
    lastTiltDirection := .neutral, hasFiredTilt := false,
    wasNeutral := true, headTilt := .neutral }

/-- The per-frame tilt direction: `right` when `tiltAngle > tiltThreshold`,
`left` when `tiltAngle < -tiltThreshold`, else `neutral` (`detectedTilt`). -/
def detectedTilt (tiltThreshold tiltAngle : α) : Dir :=
  if tiltThreshold < tiltAngle then .right
  else if tiltAngle < -tiltThreshold then .left
  else .neutral

/-- One frame of the head-tilt-detection block of `onResults`, given the
already-computed `tiltAngle` and the current time `now`.  Returns the
updated state and `some d` when a tilt event fired in direction `d`
(`onTiltLeft` / `onTiltRight` invoked). -/
def tiltStep (tiltThreshold : α) (tiltDebounceMs : ℤ) (s : TiltState)
    (tiltAngle : α) (now : ℤ) : TiltState × Option Dir :=
  let d := detectedTilt tiltThreshold tiltAngle
  let s1 : TiltState :=
    if d = s.lastTiltDirection ∧ d ≠ .neutral then
      { s with consecutiveTiltFrames := s.consecutiveTiltFrames + 1 }
    else
      { s with consecutiveTiltFrames := 0 }
  let s2 := { s1 with lastTiltDirection := d }
  let isConfirmedTilt : Bool := decide (3 ≤ s2.consecutiveTiltFrames)
  let s3 : TiltState :=
    if isConfirmedTilt ∧ d ≠ .neutral then { s2 with headTilt := d } else s2
  let fire : Bool :=
    isConfirmedTilt && decide (d ≠ .neutral) && !s3.hasFiredTilt &&
      s3.wasNeutral && decide (tiltDebounceMs < now - s3.lastTiltTime)
  let s4 : TiltState :=
    if fire then
      { s3 with lastTiltTime := now, hasFiredTilt := true, wasNeutral := false }
    else s3
  let s5 : TiltState :=
    if d = .neutral then
      let s4' : TiltState :=
        if !s4.wasNeutral then
          { s4 with wasNeutral := true, hasFiredTilt := false }
        else s4
      { s4' with headTilt := .neutral }
    else s4
  (s5, if fire then some d else none)

/-- Run the tilt classifier over a list of `(tiltAngle, now)` frames,
collecting the per-frame fired events in order. -/
def tiltRun (tiltThreshold : α) (tiltDebounceMs : ℤ) (s : TiltState) :
    List (α × ℤ) → TiltState × List (Option Dir)
  | [] => (s, [])
  | (a, t) :: rest =>
      let (s', fired) := tiltStep tiltThreshold tiltDebounceMs s a t
      let (sEnd, fires) := tiltRun tiltThreshold tiltDebounceMs s' rest
      (sEnd, fired :: fires)

/-- Number of tilt events fired during a run. -/
def countFires (l : List (Option Dir)) : ℕ := (l.filterMap id).length

/-! ## The full `onResults` frame callback -/

/-- Landmark indices of the left eye (`LEFT_EYE_INDICES`). -/
def LEFT_EYE_INDICES : List ℕ := [362, 385, 387, 263, 373, 380]

/-- Landmark indices of the right eye (`RIGHT_EYE_INDICES`). -/
def RIGHT_EYE_INDICES : List ℕ := [33, 160, 158, 133, 153, 144]

/-- The combined mutable state touched by one `onResults` invocation:
blink refs/state, tilt refs/state, and the `faceDetected` flag. -/
structure DetectState where
  blink : BlinkState
  tilt : TiltState
  faceDetected : Bool
deriving DecidableEq, Repr

/-- The externally observable events of one `onResults` invocation:
whether `onBlink` fired, and which of `onTiltLeft` / `onTiltRight`
fired (as `some .left` / `some .right`). -/
structure FrameEvents where
  blinkFired : Bool
  tiltFired : Option Dir
deriving DecidableEq, Repr

/-- The `faceMesh.onResults` callback: `multiFaceLandmarks` is
`results.multiFaceLandmarks` (absent or a list of faces).  When no face
is present the callback only clears `faceDetected` and returns; otherwise
it runs the blink block and the tilt block on the first face's landmarks. -/
noncomputable def onResults (blinkThreshold : ℝ) (debounceMs : ℤ)
    (tiltThreshold : ℝ) (tiltDebounceMs : ℤ)
    (multiFaceLandmarks : Option (List (List Landmark)))
    (s : DetectState) (now : ℤ) : DetectState × FrameEvents :=
  match multiFaceLandmarks with
  | none => ({ s with faceDetected := false }, ⟨false, none⟩)
  | some faces =>
    if faces.length = 0 then ({ s with faceDetected := false }, ⟨false, none⟩)
    else
      let landmarks := faces.getD 0 []
      let leftEye := LEFT_EYE_INDICES.map (fun i => landmarks.getD i Landmark.zero)
      let rightEye := RIGHT_EYE_INDICES.map (fun i => landmarks.getD i Landmark.zero)
      let leftEAR := calculateEAR leftEye
      let rightEAR := calculateEAR rightEye
      let avgEAR := (leftEAR + rightEAR) / 2
      let br := blinkStep blinkThreshold debounceMs s.blink avgEAR now
      let tiltAngle := calculateHeadTilt landmarks
      let tr := tiltStep tiltThreshold tiltDebounceMs s.tilt tiltAngle now
      (⟨br.1, tr.1, true⟩, ⟨br.2, tr.2⟩)

/-! ## Page-level handlers and calibration controller (`BlinkDeletePage`) -/

/-- The page's `AppState`: `"hero" | "demo" | "upload" | "review" | "results"`. -/
inductive AppState where
  | hero
  | demo
  | upload
  | review
  | results
deriving DecidableEq, Repr

/-- The page-level React state relevant to the gesture handlers:
`appState`, the photo list (modelled by each photo's `marked` flag),
`currentIndex`, and the calibration controller's `isCalibrating` /
`calibrationBlinks`. -/
structure PageState where
  appState : AppState
  photos : List Bool
  currentIndex : ℕ
  isCalibrating : Bool
  calibrationBlinks : ℕ
deriving DecidableEq, Repr

/-- The page handler `handleTiltRight`: ignored while calibrating; otherwise advances to the
next photo, or transitions to `results` from the last photo.  Index
comparisons are over `ℤ` as in JavaScript (`idx < len - 1`). -/
def handleTiltRight (p : PageState) : PageState :=
  if p.isCalibrating then p
  else if (p.currentIndex : ℤ) < (p.photos.length : ℤ) - 1 then
    { p with currentIndex := p.currentIndex + 1 }
  else if (p.currentIndex : ℤ) = (p.photos.length : ℤ) - 1 then
    { p with appState := .results }
  else p

/-- The page handler `handleTiltLeft`: ignored while calibrating; otherwise goes to the
previous photo when `idx > 0`. -/
def handleTiltLeft (p : PageState) : PageState :=
  if p.isCalibrating then p
  else if 0 < p.currentIndex then { p with currentIndex := p.currentIndex - 1 }
  else p

/-- The page handler `handleBlink`: while calibrating, counts a calibration blink and does
nothing else; otherwise toggles the `marked` flag of the current photo when
in `review` or `demo` state with a valid index. -/
def handleBlink (p : PageState) : PageState :=
  if p.isCalibrating then
    { p with calibrationBlinks := p.calibrationBlinks + 1 }
  else if (p.appState = .review ∨ p.appState = .demo) ∧
      p.currentIndex < p.photos.length then
    { p with photos :=
        p.photos.set p.currentIndex (!(p.photos.getD p.currentIndex false)) }
  else p

/-- The tilt-event dispatch inside `onResults`' fire branch:
`if (detectedTilt === "left") onTiltLeft?.(); else if (detectedTilt ===
"right") onTiltRight?.();`, applied to the fired event of a frame. -/
def fireTilt (onTiltLeft onTiltRight : PageState → PageState) :
    Option Dir → PageState → PageState
  | some .left, p => onTiltLeft p
  | some .right, p => onTiltRight p
  | _, p => p

/-- The page's instantiation of the hook
(`useBlinkDetection(handleBlink, 0.18, 500, handleTiltRight,
handleTiltLeft, 15, 600)`): the third positional handler argument
(`onTiltLeft`) is `handleTiltRight` and the fourth (`onTiltRight`) is
`handleTiltLeft`. -/
def pageFireTilt : Option Dir → PageState → PageState :=
  fireTilt handleTiltRight handleTiltLeft

/-- One blink event as seen by the page, carrying the hook's
`state.blinkCount` alongside the page state: the hook increments
`blinkCount` when it fires, `handleBlink` (the page's `onBlink`) runs, and
then the calibration-completion `useEffect`
(`calibrationBlinks >= 3 && isCalibrating`) sets `isCalibrating` to
`false`, resets `calibrationBlinks` to `0` and calls `resetBlinkCount()`
(which zeroes the hook's `blinkCount`). -/
def pageBlinkEvent : ℕ × PageState → ℕ × PageState :=
  fun (blinkCount, p) =>
    let blinkCount1 := blinkCount + 1
    let p1 := handleBlink p
    if 3 ≤ p1.calibrationBlinks ∧ p1.isCalibrating then
      (0, { p1 with isCalibrating := false, calibrationBlinks := 0 })
    else (blinkCount1, p1)

/-! ## Claim theorems -/

/-- C1 (counterexample): the claim says three consecutive frames of the same
non-neutral detected direction (here 20° > 15°, i.e. `right`) suffice to
confirm that direction.  On the code, starting from the initial state,
after exactly three such frames the run-length counter is only `2`, the
direction is not confirmed (`headTilt` still `neutral`) and no event has
fired. -/
theorem tilt_three_frames_not_confirmed :
    detectedTilt (15 : ℚ) 20 = Dir.right ∧
    (tiltRun (15 : ℚ) 600 TiltState.init [(20, 1000), (20, 1100), (20, 1200)]).2 =
      [none, none, none] ∧
    ((tiltRun (15 : ℚ) 600 TiltState.init
        [(20, 1000), (20, 1100), (20, 1200)]).1).consecutiveTiltFrames = 2 ∧
    ((tiltRun (15 : ℚ) 600 TiltState.init
        [(20, 1000), (20, 1100), (20, 1200)]).1).headTilt = Dir.neutral := by
  decide

/-- C1 (amended): the run-length counter increments only while the detected
direction equals the previous frame's non-neutral direction and resets on
any change (including to or from neutral); since confirmation requires the
counter to reach 3, four (not three) consecutive frames of the same
non-neutral direction are needed, and four suffice: from the initial state
the fourth consecutive right-tilt frame confirms and fires. -/
theorem tilt_counter_rule_and_four_frames_confirm :
    (∀ (s : TiltState) (a : ℚ) (t : ℤ),
        ((tiltStep (15 : ℚ) 600 s a t).1).consecutiveTiltFrames =
          if detectedTilt (15 : ℚ) a = s.lastTiltDirection ∧
              detectedTilt (15 : ℚ) a ≠ Dir.neutral
          then s.consecutiveTiltFrames + 1 else 0) ∧
    (tiltRun (15 : ℚ) 600 TiltState.init
        [(20, 1000), (20, 1100), (20, 1200), (20, 1300)]).2 =
      [none, none, none, some Dir.right] := by
  constructor
  · intro s a t
    simp only [tiltStep]
    split_ifs <;> rfl
  · decide

/-- C2 (counterexample): on the openness sequence
`[0.3, 0.3, 0.05, 0.05, 0.3]` with threshold `0.18`, timestamps spaced
200 ms apart starting 1000 ms after session start, the third frame's
evaluation (the first low frame, run-length counter 1) fires no blink
event, contrary to the claim. -/
theorem blink_third_frame_no_fire :
    ((blinkRun (18/100 : ℚ) 500 BlinkState.init
        [(3/10, 1000), (3/10, 1200), (5/100, 1400), (5/100, 1600), (3/10, 1800)]).2).getD 2 true
      = false := by
  norm_num [blinkRun, blinkStep, BlinkState.init, List.getD]

/-- C2 (amended): on the openness sequence `[0.3, 0.3, 0.05, 0.05, 0.3]`
with threshold `0.18`, timestamps spaced more than 150 ms apart and more
than 500 ms after session start with no prior blink, exactly one blink
event fires over the whole sequence, and it fires on the fourth frame's
evaluation (the second consecutive low frame). -/
theorem blink_sequence_fires_once_on_fourth_frame :
    (blinkRun (18/100 : ℚ) 500 BlinkState.init
        [(3/10, 1000), (3/10, 1200), (5/100, 1400), (5/100, 1600), (3/10, 1800)]).2 =
      [false, false, false, true, false] := by
  norm_num [blinkRun, blinkStep, BlinkState.init]

/-- C4 (counterexample): a right-tilt event fires (fourth frame), the head
returns to neutral for one frame, and then tilts right for exactly three
consecutive frames (with more than 600 ms debounce margin between all
frames): no second right-tilt event fires, contrary to the claim. -/
theorem tilt_no_refire_after_three_frames :
    (tiltRun (15 : ℚ) 600 TiltState.init
        [(20, 1000), (20, 1700), (20, 2400), (20, 3100), (0, 3800),
         (20, 4500), (20, 5200), (20, 5900)]).2 =
      [none, none, none, some Dir.right, none, none, none, none] := by
  decide

/-- C4 (amended): after a right-tilt event has fired and at least one
neutral frame has been observed, four (not three) consecutive right-tilt
frames beyond the threshold fire a second right-tilt event. -/
theorem tilt_refire_after_neutral_and_four_frames :
    (tiltRun (15 : ℚ) 600 TiltState.init
        [(20, 1000), (20, 1700), (20, 2400), (20, 3100), (0, 3800),
         (20, 4500), (20, 5200), (20, 5900), (20, 6600)]).2 =
      [none, none, none, some Dir.right, none, none, none, none,
       some Dir.right] := by
  decide

/-- C8: `calculateEAR` returns exactly `1` when fewer than 6 eye points are
supplied or when the horizontal distance (points 0–3) is zero, and otherwise
returns `(v1 + v2) / (2 * h)` where `v1`, `v2` are the vertical
point-to-point Euclidean distances (points 1–5 and 2–4) and `h` the
horizontal distance (points 0–3); it is a total function (never fails). -/
theorem calculateEAR_contract (pts : List Landmark) :
    (pts.length < 6 → calculateEAR pts = 1) ∧
    (6 ≤ pts.length →
      (earH pts = 0 → calculateEAR pts = 1) ∧
      (earH pts ≠ 0 →
        calculateEAR pts = (earV1 pts + earV2 pts) / (2 * earH pts))) := by
  refine ⟨fun hlt => ?_, fun hge => ⟨fun h0 => ?_, fun hne => ?_⟩⟩
  · rw [calculateEAR, if_pos hlt]
  · rw [calculateEAR, if_neg (by omega)]
    exact if_pos h0
  · rw [calculateEAR, if_neg (by omega)]
    exact if_neg hne

/-- C8 (witness): on the empty list of eye points, `calculateEAR`
evaluates to the sentinel value `1`. -/
theorem calculateEAR_contract_witness : calculateEAR [] = 1 :=
  (calculateEAR_contract []).1 (by simp)

/-- C10: when no face landmarks are present (either `multiFaceLandmarks`
absent or an empty face list), `onResults` leaves every classifier field
exactly as it was, only setting `faceDetected` to `false`, and fires no
event. -/
theorem onResults_no_face_state_untouched (bt : ℝ) (db : ℤ) (tt : ℝ)
    (tdb : ℤ) (s : DetectState) (now : ℤ) :
    onResults bt db tt tdb none s now =
      ({ s with faceDetected := false }, ⟨false, none⟩) ∧
    onResults bt db tt tdb (some []) s now =
      ({ s with faceDetected := false }, ⟨false, none⟩) := by
  exact ⟨rfl, rfl⟩

/-- A concrete landmark frame in which the left ear sits at `(1, 0)` and
the right ear at the origin, so the vertical delta between the ears is `0`
and the horizontal delta is `-1`. -/
noncomputable def earOnlyLandmarks : List Landmark :=
  (List.range 455).map fun i =>
    if i = LEFT_EAR then ⟨1, 0, 0⟩ else ⟨0, 0, 0⟩

/-- Helper: `atan2 0 x = 0` whenever `x ≥ 0` (both the positive branch, via
`arctan 0 = 0`, and the origin). -/
theorem atan2_zero_of_nonneg {x : ℝ} (hx : 0 ≤ x) : atan2 0 x = 0 := by
  rcases lt_or_eq_of_le hx with hpos | hzero
  · rw [atan2, if_pos hpos, zero_div, Real.arctan_zero]
  · rw [atan2, if_neg (by rw [← hzero]; exact lt_irrefl 0),
      if_neg (by rw [← hzero]; exact lt_irrefl 0),
      if_neg (lt_irrefl 0), if_neg (lt_irrefl 0)]

/-- C9 (counterexample): on `earOnlyLandmarks` both ear points are present
and the vertical delta between them is `0`, yet `calculateHeadTilt`
returns `180` degrees (the horizontal delta is `-1`, and
`atan2(0, -1) = π`), not `0` as the claim states. -/
theorem headTilt_zero_vertical_delta_nonzero :
    earOnlyLandmarks.get? LEFT_EAR = some ⟨1, 0, 0⟩ ∧
    earOnlyLandmarks.get? RIGHT_EAR = some ⟨0, 0, 0⟩ ∧
    ((0 : ℝ) - 0 = 0) ∧
    calculateHeadTilt earOnlyLandmarks = 180 ∧ (180 : ℝ) ≠ 0 := by
  have hL : earOnlyLandmarks.get? LEFT_EAR = some ⟨1, 0, 0⟩ := by
    rw [earOnlyLandmarks, List.get?_map,
      List.get?_range (show LEFT_EAR < 455 by norm_num [LEFT_EAR])]
    simp [LEFT_EAR]
  have hR : earOnlyLandmarks.get? RIGHT_EAR = some ⟨0, 0, 0⟩ := by
    rw [earOnlyLandmarks, List.get?_map,
      List.get?_range (show RIGHT_EAR < 455 by norm_num [RIGHT_EAR])]
    simp [RIGHT_EAR, LEFT_EAR]
  refine ⟨hL, hR, by norm_num, ?_, by norm_num⟩
  rw [calculateHeadTilt, hL, hR]
  have h1 : atan2 ((0 : ℝ) - 0) ((0 : ℝ) - 1) = Real.pi := by
    rw [show ((0 : ℝ) - 0) = 0 by norm_num, atan2,
      if_neg (by norm_num), if_pos (by norm_num), if_pos le_rfl,
      zero_div, Real.arctan_zero, zero_add]
  simp only [h1]
  field_simp

/-- C9 (amended): `calculateHeadTilt` returns `0` when either ear point is
absent; and it returns `0` when the vertical delta is zero PROVIDED the
horizontal delta is nonnegative (with a negative horizontal delta it
returns `180`, and with a zero horizontal delta but nonzero vertical delta
it returns `±90`, as the counterexample shows for the `180` case). -/
theorem calculateHeadTilt_zero_cases (lms : List Landmark) :
    (lms.get? LEFT_EAR = none ∨ lms.get? RIGHT_EAR = none →
      calculateHeadTilt lms = 0) ∧
    (∀ l r, lms.get? LEFT_EAR = some l → lms.get? RIGHT_EAR = some r →
      r.y - l.y = 0 → 0 ≤ r.x - l.x → calculateHeadTilt lms = 0) := by
  constructor
  · intro h
    rcases h with h | h
    · rw [calculateHeadTilt, h]
    · rw [calculateHeadTilt, h]
      cases hL : lms.get? LEFT_EAR <;> rfl
  · intro l r hL hR hy hx
    rw [calculateHeadTilt, hL, hR]
    simp only [hy, atan2_zero_of_nonneg hx, zero_mul]

/-- C9 (witness): on the empty landmark list both ear points are absent and
`calculateHeadTilt` evaluates to `0`. -/
theorem calculateHeadTilt_zero_cases_witness :
    calculateHeadTilt ([] : List Landmark) = 0 :=
  (calculateHeadTilt_zero_cases []).1 (Or.inl rfl)

/-- C5: the hook dispatches a fired left tilt to its `onTiltLeft` argument
and a fired right tilt to its `onTiltRight` argument, and the page passes
`handleTiltRight` in the `onTiltLeft` position and `handleTiltLeft` in the
`onTiltRight` position (`pageFireTilt`): hence a confirmed left head tilt
invokes `handleTiltRight` (which advances to the next photo when not
calibrating and not on the last photo) and a confirmed right head tilt
invokes `handleTiltLeft` (which goes to the previous photo when not
calibrating and the index is positive). -/
theorem tilt_handlers_swapped :
    (∀ (s : TiltState) (a : ℚ) (t : ℤ) (p : PageState),
        (tiltStep (15 : ℚ) 600 s a t).2 = some Dir.left →
        pageFireTilt (tiltStep (15 : ℚ) 600 s a t).2 p = handleTiltRight p) ∧
    (∀ (s : TiltState) (a : ℚ) (t : ℤ) (p : PageState),
        (tiltStep (15 : ℚ) 600 s a t).2 = some Dir.right →
        pageFireTilt (tiltStep (15 : ℚ) 600 s a t).2 p = handleTiltLeft p) ∧
    (∀ p : PageState, p.isCalibrating = false →
        (p.currentIndex : ℤ) < (p.photos.length : ℤ) - 1 →
        (pageFireTilt (some Dir.left) p).currentIndex = p.currentIndex + 1) ∧
    (∀ p : PageState, p.isCalibrating = false → 0 < p.currentIndex →
        (pageFireTilt (some Dir.right) p).currentIndex = p.currentIndex - 1) := by
  refine ⟨fun s a t p h => ?_, fun s a t p h => ?_, fun p hc hi => ?_,
    fun p hc hi => ?_⟩
  · rw [h]; rfl
  · rw [h]; rfl
  · show (handleTiltRight p).currentIndex = p.currentIndex + 1
    rw [handleTiltRight, if_neg (by rw [hc]; exact Bool.false_ne_true),
      if_pos hi]
  · show (handleTiltLeft p).currentIndex = p.currentIndex - 1
    rw [handleTiltLeft, if_neg (by rw [hc]; exact Bool.false_ne_true),
      if_pos hi]

/-- C5 (witness): from a tilt state two frames into a left excursion, a
third matching left frame fires `some .left`, which the page wiring routes
to `handleTiltRight`, advancing the current index from 1 to 2; and a fired
right tilt routed through the wiring moves the index from 1 back to 0. -/
theorem tilt_handlers_swapped_witness :
    pageFireTilt
        (tiltStep (15 : ℚ) 600
          ⟨0, 2, Dir.left, false, true, Dir.left⟩ (-20) 1000).2
        ⟨AppState.review, [false, false, false], 1, false, 0⟩ =
      handleTiltRight ⟨AppState.review, [false, false, false], 1, false, 0⟩ ∧
    (pageFireTilt (some Dir.left)
        ⟨AppState.review, [false, false, false], 1, false, 0⟩).currentIndex = 2 ∧
    (pageFireTilt (some Dir.right)
        ⟨AppState.review, [false, false, false], 1, false, 0⟩).currentIndex = 0 :=
  ⟨tilt_handlers_swapped.1 _ _ _ _ (by decide),
   tilt_handlers_swapped.2.2.1 _ rfl (by decide),
   tilt_handlers_swapped.2.2.2 _ rfl (by decide)⟩

/-- C6: a blink event fires on a frame if and only if the frame makes the
confirmed-closure flag transition from `false` to `true` (the updated
`isBlinking` ref is `true` while the previous one was `false`) AND at
least `debounceMs` have elapsed since the last fired blink AND more than
150 ms have elapsed since the eyes were last marked open
(`eyeOpenSinceRef`); if any condition fails, no blink fires that frame. -/
theorem blink_fire_characterization {α : Type} [LinearOrderedField α]
    (blinkThreshold : α) (debounceMs : ℤ) (s : BlinkState) (avgEAR : α)
    (now : ℤ) :
    (blinkStep blinkThreshold debounceMs s avgEAR now).2 = true ↔
      (((blinkStep blinkThreshold debounceMs s avgEAR now).1).isBlinking = true ∧
       s.isBlinking = false ∧
       debounceMs < now - s.lastBlinkTime ∧
       150 < now - s.eyeOpenSince) := by
  by_cases hlow : avgEAR < blinkThreshold
  · simp only [blinkStep, hlow, decide_True, if_true, Bool.and_eq_true,
      Bool.not_eq_true', decide_eq_true_eq]
    constructor
    · rintro ⟨⟨⟨hconf, hnot⟩, hdeb⟩, hopen⟩
      exact ⟨hconf, hnot, hdeb, hopen⟩
    · rintro ⟨hconf, hnot, hdeb, hopen⟩
      exact ⟨⟨⟨hconf, hnot⟩, hdeb⟩, hopen⟩
  · simp only [blinkStep, hlow, decide_False, Bool.false_eq_true, if_false]
    split_ifs <;> simp

/-- C7: while calibration is active with a zero calibration count, each
blink event increments the calibration count; after exactly 3 blink events
the calibration-completion effect runs: `isCalibrating` becomes `false`,
`calibrationBlinks` resets to `0`, and `resetBlinkCount` zeroes the hook's
session `blinkCount`, so session blink-counting starts clean. -/
theorem calibration_completes_after_three_blinks
    (p : PageState) (blinkCount : ℕ)
    (hc : p.isCalibrating = true) (h0 : p.calibrationBlinks = 0) :
    ((pageBlinkEvent (blinkCount, p)).2.isCalibrating = true ∧
     (pageBlinkEvent (blinkCount, p)).2.calibrationBlinks = 1) ∧
    ((pageBlinkEvent (pageBlinkEvent (blinkCount, p))).2.isCalibrating = true ∧
     (pageBlinkEvent (pageBlinkEvent (blinkCount, p))).2.calibrationBlinks = 2) ∧
    ((pageBlinkEvent (pageBlinkEvent (pageBlinkEvent (blinkCount, p)))).2.isCalibrating
        = false ∧
     (pageBlinkEvent (pageBlinkEvent (pageBlinkEvent (blinkCount, p)))).2.calibrationBlinks
        = 0 ∧
     (pageBlinkEvent (pageBlinkEvent (pageBlinkEvent (blinkCount, p)))).1 = 0) := by
  simp [pageBlinkEvent, handleBlink, hc, h0]

/-- C7 (witness): starting calibration (active, zero count) on a concrete
review page with one photo and a hook blink count of 5, the first two
blink events leave calibration active with counts 1 and 2, and the third
completes it: inactive, calibration count 0, hook blink count 0. -/
theorem calibration_completes_after_three_blinks_witness :
    ((pageBlinkEvent (5, ⟨AppState.review, [false], 0, true, 0⟩)).2.isCalibrating
        = true ∧
     (pageBlinkEvent (5, ⟨AppState.review, [false], 0, true, 0⟩)).2.calibrationBlinks
        = 1) ∧
    ((pageBlinkEvent (pageBlinkEvent
        (5, ⟨AppState.review, [false], 0, true, 0⟩))).2.isCalibrating = true ∧
     (pageBlinkEvent (pageBlinkEvent
        (5, ⟨AppState.review, [false], 0, true, 0⟩))).2.calibrationBlinks = 2) ∧
    ((pageBlinkEvent (pageBlinkEvent (pageBlinkEvent
        (5, ⟨AppState.review, [false], 0, true, 0⟩)))).2.isCalibrating = false ∧
     (pageBlinkEvent (pageBlinkEvent (pageBlinkEvent
        (5, ⟨AppState.review, [false], 0, true, 0⟩)))).2.calibrationBlinks = 0 ∧
     (pageBlinkEvent (pageBlinkEvent (pageBlinkEvent
        (5, ⟨AppState.review, [false], 0, true, 0⟩)))).1 = 0) :=
  calibration_completes_after_three_blinks
    ⟨AppState.review, [false], 0, true, 0⟩ 5 rfl rfl

/-- Unfolding of `tiltRun` on a cons cell. -/
theorem tiltRun_cons {α : Type} [LinearOrderedField α] (th : α) (db : ℤ)
    (s : TiltState) (a : α) (t : ℤ) (rest : List (α × ℤ)) :
    tiltRun th db s ((a, t) :: rest) =
      ((tiltRun th db (tiltStep th db s a t).1 rest).1,
       (tiltStep th db s a t).2 ::
         (tiltRun th db (tiltStep th db s a t).1 rest).2) := rfl

/-- If a tilt event fired on a frame, the updated state has
`hasFiredTilt = true` (firing requires a non-neutral direction, so the
neutral-reset branch that clears the flag is not taken). -/
theorem tiltStep_fired_hasFired {α : Type} [LinearOrderedField α]
    {th : α} {db : ℤ} {s : TiltState} {a : α} {t : ℤ} {d : Dir}
    (h : (tiltStep th db s a t).2 = some d) :
    ((tiltStep th db s a t).1).hasFiredTilt = true := by
  simp only [tiltStep] at h ⊢
  split_ifs at h ⊢ <;> simp_all

/-- While the detected direction stays non-neutral, a state with
`hasFiredTilt = true` fires nothing and keeps the flag set. -/
theorem tiltStep_hasFired_no_fire {α : Type} [LinearOrderedField α]
    {th : α} {db : ℤ} {s : TiltState} {a : α} {t : ℤ}
    (hd : detectedTilt th a ≠ Dir.neutral) (hs : s.hasFiredTilt = true) :
    (tiltStep th db s a t).2 = none ∧
      ((tiltStep th db s a t).1).hasFiredTilt = true := by
  simp only [tiltStep]
  split_ifs <;> simp_all

/-- Over any all-non-neutral frame sequence, a state that has already fired
for the current excursion fires nothing at all. -/
theorem tiltRun_hasFired_no_fire {α : Type} [LinearOrderedField α]
    (th : α) (db : ℤ) :
    ∀ (frames : List (α × ℤ)) (s : TiltState),
      (∀ p ∈ frames, detectedTilt th p.1 ≠ Dir.neutral) →
      s.hasFiredTilt = true →
      countFires (tiltRun th db s frames).2 = 0 := by
  intro frames
  induction frames with
  | nil => intro s _ _; rfl
  | cons hd tl ih =>
      intro s hnn hs
      obtain ⟨a, t⟩ := hd
      have hdnn : detectedTilt th a ≠ Dir.neutral :=
        hnn (a, t) (List.mem_cons_self _ _)
      obtain ⟨hfire, hflag⟩ := @tiltStep_hasFired_no_fire α _ th db s a t hdnn hs
      rw [tiltRun_cons, hfire]
      have := ih (tiltStep th db s a t).1
        (fun p hp => hnn p (List.mem_cons_of_mem _ hp)) hflag
      simpa [countFires] using this

/-- C3: over every frame sequence whose detected direction is never
neutral, the tilt classifier fires at most one event in total, regardless
of the sequence's length (the fired-latch is only cleared by a neutral
frame). -/
theorem tilt_at_most_one_fire_without_neutral {α : Type}
    [LinearOrderedField α] (th : α) (db : ℤ) (frames : List (α × ℤ))
    (s : TiltState)
    (hnn : ∀ p ∈ frames, detectedTilt th p.1 ≠ Dir.neutral) :
    countFires (tiltRun th db s frames).2 ≤ 1 := by
  induction frames generalizing s with
  | nil => exact Nat.zero_le 1
  | cons hd tl ih =>
      obtain ⟨a, t⟩ := hd
      rw [tiltRun_cons]
      cases hfire : (tiltStep th db s a t).2 with
      | none =>
          have := ih (tiltStep th db s a t).1
            (fun p hp => hnn p (List.mem_cons_of_mem _ hp))
          simpa [countFires] using this
      | some d =>
          have hflag := tiltStep_fired_hasFired hfire
          have hrest := tiltRun_hasFired_no_fire th db tl
            (tiltStep th db s a t).1
            (fun p hp => hnn p (List.mem_cons_of_mem _ hp)) hflag
          simp_all [countFires, List.filterMap_cons]
          exact hrest

/-- C3 (witness): a sustained right-tilt sequence of 20 frames (20° > 15°
threshold, no return to neutral) fires at most one event in total. -/
theorem tilt_at_most_one_fire_without_neutral_witness :
    countFires (tiltRun (15 : ℚ) 600 TiltState.init
      [(20, 1000), (20, 1100), (20, 1200), (20, 1300), (20, 1400),
       (20, 1500), (20, 1600), (20, 1700), (20, 1800), (20, 1900),
       (20, 2000), (20, 2100), (20, 2200), (20, 2300), (20, 2400),
       (20, 2500), (20, 2600), (20, 2700), (20, 2800), (20, 2900)]).2 ≤ 1 :=
  tilt_at_most_one_fire_without_neutral 15 600 _ TiltState.init (by decide)

end BlinkDelete
